import Mathlib

/-!
Verification development for the suitsize-frontend backend sizing engines.

The definitions below are a shallow embedding of the Python sources:
  * `src/backend/wedding_sizing_engine.py`   (wedding engine)
  * `src/backend/ml_enhanced_sizing_engine.py` (ML-enhanced engine)
  * `src/backend/wedding_group_coordination.py` (group coordination)
Real numbers are modelled as `ℚ`; Python decimal literals such as `0.85`
denote the same rationals here.  Fallible dictionary lookups are modelled
with `Option`.  The single call to `random.random()` in the wedding engine
is modelled by an explicit rational argument `rand` (the drawn sample).
-/

/-- Wedding party roles, from the `WeddingRole` enum. -/
inductive WeddingRole where
  | groom
  | groomsman
  | best_man
  | father_of_bride
  | father_of_groom
  | usher
  | ring_bearer
  | guests
deriving DecidableEq, Repr

/-- Wedding styles, from the `WeddingStyle` enum. -/
inductive WeddingStyle where
  | formal
  | semi_formal
  | casual
  | black_tie
  | beach
  | outdoor
  | vintage
  | modern
deriving DecidableEq, Repr

/-- One entry of `WeddingSizingEngine.role_adjustments`
(the `consistency_priority` string is never read by the computations
modelled here and is omitted). -/
structure RoleConfig where
  base_multiplier : ℚ
  confidence_boost : ℚ
  style_flexibility : ℚ
deriving DecidableEq, Repr

/-- The `role_adjustments` dictionary built in `WeddingSizingEngine.__init__`.
A Python `dict` lookup that can raise `KeyError` is modelled as an `Option`:
the dictionary has no entry for `RING_BEARER`. -/
def role_adjustments : WeddingRole → Option RoleConfig
  | .groom => some ⟨1, 0.1, 0.9⟩
  | .best_man => some ⟨1, 0.05, 0.95⟩
  | .groomsman => some ⟨0.98, 0, 1⟩
  | .father_of_bride => some ⟨1.02, 0.05, 1.1⟩
  | .father_of_groom => some ⟨1.02, 0.05, 1.1⟩
  | .usher => some ⟨0.99, 0, 1⟩
  | .guests => some ⟨1, 0, 1⟩
  | .ring_bearer => none

/-- One entry of `WeddingSizingEngine.style_impacts`
(`alteration_probability` is never read by the computations modelled
here and is omitted). -/
structure StyleConfig where
  fit_preference_shift : String
  confidence_boost : ℚ
deriving DecidableEq, Repr

/-- The `style_impacts` dictionary built in `WeddingSizingEngine.__init__`.
The code accesses it with `dict.get(style, {})`, so absent styles are
modelled as `none`. -/
def style_impacts : WeddingStyle → Option StyleConfig
  | .formal => some ⟨"regular", 0.05⟩
  | .black_tie => some ⟨"slim", 0.1⟩
  | .casual => some ⟨"relaxed", 0⟩
  | .beach => some ⟨"relaxed", 0.05⟩
  | .outdoor => some ⟨"relaxed", 0⟩
  | _ => none

/-- `height_weight_ratio = weight_kg / (height_cm / 100)` as computed in
`WeddingSizingEngine._get_base_recommendation` (and again, identically, in
`CustomerSimilarityEngine._load_synthetic_customer_data`). -/
def hwRatio (height_cm weight_kg : ℚ) : ℚ := weight_kg / (height_cm / 100)

/-- The slim-fit threshold ladder of `_get_base_recommendation`
(`wedding_sizing_engine.py` lines 237-247; the identical ladder appears at
`ml_enhanced_sizing_engine.py` lines 271-281). -/
def slimLadder (r : ℚ) : String :=
  if r < 0.8 then "38"
  else if r < 0.9 then "40"
  else if r < 1.0 then "42"
  else if r < 1.1 then "44"
  else "46"

/-- The relaxed-fit threshold ladder (lines 249-261 of the wedding engine,
lines 283-295 of the ML engine). -/
def relaxedLadder (r : ℚ) : String :=
  if r < 0.7 then "40"
  else if r < 0.8 then "42"
  else if r < 0.9 then "44"
  else if r < 1.0 then "46"
  else if r < 1.1 then "48"
  else "50"

/-- The regular-fit threshold ladder (lines 263-277 of the wedding engine,
lines 297-311 of the ML engine).  In the source this is the `else` branch
of the fit dispatch, hence it also catches unknown fit strings. -/
def regularLadder (r : ℚ) : String :=
  if r < 0.75 then "38"
  else if r < 0.85 then "40"
  else if r < 0.95 then "42"
  else if r < 1.05 then "44"
  else if r < 1.15 then "46"
  else if r < 1.25 then "48"
  else "50"

/-- The full fit dispatch of the base size calculation: ladder value plus
fit suffix, before the length override.  Mirrors the
`if fit == 'slim' ... elif fit == 'relaxed' ... else` chain that builds
`size` and then appends the suffix character. -/
def baseSizeNoLength (r : ℚ) (fit : String) : String :=
  if fit = "slim" then slimLadder r ++ "S"
  else if fit = "relaxed" then relaxedLadder r ++ "R"
  else regularLadder r ++ "R"

/-- The length override of `_get_base_recommendation` (lines 280-283):
`if height_cm > 185: if height_cm > 200: size = size[:-1] + 'L'`.
The identical code appears at `ml_enhanced_sizing_engine.py` lines 314-320. -/
def applyLength (height_cm : ℚ) (size : String) : String :=
  if height_cm > 185 then
    (if height_cm > 200 then size.dropRight 1 ++ "L" else size)
  else size

/-- `WeddingSizingEngine._classify_body_type` (lines 407-422). -/
def classify_body_type_wedding (height weight : ℚ) : String :=
  let bmi := weight / (height / 100) ^ 2
  let height_weight_ratio := weight / (height / 100)
  if bmi < 18.5 then "Slim"
  else if bmi > 30 then "Broad"
  else if height_weight_ratio > 1.1 then "Athletic"
  else if height_weight_ratio < 0.85 then "Slender"
  else "Regular"

/-- `AnthropometricValidator._classify_body_type` (ml engine lines 92-110).
Takes `bmi` as an argument, just as the Python static method does; its
caller `validate_measurements` passes `bmi = weight_kg / (height_cm/100)^2`. -/
def classify_body_type_ml (height_cm weight_kg bmi : ℚ) : String :=
  let height_weight_ratio := weight_kg / (height_cm / 100)
  if bmi < 18.5 then "Slim"
  else if bmi > 30 then "Broad"
  else if height_weight_ratio > 1.1 then "Athletic"
  else if height_weight_ratio < 0.85 then "Slender"
  else if 25 ≤ bmi ∧ bmi < 30 then "Overweight"
  else "Regular"

/-- `WeddingSizingEngine._get_confidence_level` (lines 424-435). -/
def get_confidence_level_wedding (confidence : ℚ) : String :=
  if confidence ≥ 0.9 then "Very High"
  else if confidence ≥ 0.8 then "High"
  else if confidence ≥ 0.7 then "Medium"
  else if confidence ≥ 0.6 then "Low"
  else "Very Low"

/-- `EnhancedConfidenceScorer.get_confidence_level` (ml engine lines 671-682). -/
def get_confidence_level_ml (confidence : ℚ) : String :=
  if confidence ≥ 0.85 then "Very High"
  else if confidence ≥ 0.75 then "High"
  else if confidence ≥ 0.65 then "Medium"
  else if confidence ≥ 0.55 then "Low"
  else "Very Low"

/-- `WeddingSizingEngine._calculate_wedding_confidence` (lines 389-405).
The `size` parameter of the Python function is never read and is omitted. -/
def calculate_wedding_confidence (height weight : ℚ) (fit : String) : ℚ :=
  let base := (0.85 : ℚ)
  let base :=
    if 170 ≤ height ∧ height ≤ 190 ∧ 65 ≤ weight ∧ weight ≤ 95 then base + 0.1
    else if height < 160 ∨ height > 200 ∨ weight < 50 ∨ weight > 120 then base - 0.1
    else base
  let base := if fit = "regular" then base + 0.05 else base
  min 1 base

/-- The fields of the recommendation dictionary built by
`_get_base_recommendation` that carry decision logic.  The presentation
fields (`rationale`, `alterations`, `measurements`) are plain echoes of
these values and of the inputs and are not modelled. -/
structure Recommendation where
  size : String
  confidence : ℚ
  confidenceLevel : String
  bodyType : String
deriving DecidableEq, Repr

/-- `WeddingSizingEngine._get_base_recommendation` (lines 223-300):
unit normalisation, ratio, fit ladder, length override, wedding confidence,
confidence level and body type. -/
def get_base_recommendation (height weight : ℚ) (fit unit : String) :
    Recommendation :=
  let height_cm := if unit = "metric" then height else height * 2.54
  let weight_kg := if unit = "metric" then weight else weight * 0.453592
  let r := hwRatio height_cm weight_kg
  let size := applyLength height_cm (baseSizeNoLength r fit)
  let confidence := calculate_wedding_confidence height_cm weight_kg fit
  { size := size
    confidence := confidence
    confidenceLevel := get_confidence_level_wedding confidence
    bodyType := classify_body_type_wedding height_cm weight_kg }

/-- `WeddingSizingEngine._adjust_fit_preference` (lines 207-221).  The
Python body draws `random.random()`; the drawn sample is the explicit
argument `rand`, and the comparison `rand < abs(1 - flexibility)` is the
code's `random.random() < adjustment_probability`. -/
def adjust_fit_preference (original_fit style_bias : String)
    (flexibility rand : ℚ) : String :=
  if original_fit = style_bias then original_fit
  else if rand < |1 - flexibility| then style_bias else original_fit

/-- The confidence part of `WeddingSizingEngine._apply_wedding_enhancements`
(lines 326-331): both boosts are added and the result clamped at 1.0, then
the confidence level is recomputed.  The metadata fields added by the rest
of that method do not alter `size` or `bodyType`. -/
def apply_wedding_enhancements (base : Recommendation)
    (role_config : RoleConfig) (style_config : Option StyleConfig) :
    Recommendation :=
  let boost := role_config.confidence_boost +
    (style_config.map StyleConfig.confidence_boost).getD 0
  let c := min 1 (base.confidence + boost)
  { base with confidence := c, confidenceLevel := get_confidence_level_wedding c }

/-- A `WeddingPartyMember` restricted to the fields read by
`get_role_based_recommendation` (`id`, `name` and the optional
wedding-specific fields are never read by the sizing computation). -/
structure Member where
  role : WeddingRole
  height : ℚ
  weight : ℚ
  fit_preference : String
  unit : String
deriving DecidableEq, Repr

/-- `WeddingSizingEngine.get_role_based_recommendation` (lines 177-205).
Of the `WeddingDetails` only `style` is ever read by this computation.
The dictionary access `self.role_adjustments[member.role]` raises
`KeyError` for a missing role, modelled by propagating `none`. -/
def get_role_based_recommendation (m : Member) (style : WeddingStyle)
    (rand : ℚ) : Option Recommendation :=
  match role_adjustments m.role with
  | none => none
  | some role_config =>
    let style_config := style_impacts style
    let adjusted_height := m.height * role_config.base_multiplier
    let adjusted_weight := m.weight * role_config.base_multiplier
    let bias := match style_config with
      | some s => s.fit_preference_shift
      | none => m.fit_preference
    let preferred_fit :=
      adjust_fit_preference m.fit_preference bias role_config.style_flexibility rand
    let base := get_base_recommendation adjusted_height adjusted_weight
      preferred_fit m.unit
    some (apply_wedding_enhancements base role_config style_config)

/-- `EnhancedConfidenceScorer._calculate_edge_case_confidence`
(ml engine lines 644-669).  The Python function reads `bmi` and
`body_type` out of the `anthropometric_data` dict and `height_cm` from its
arguments; `weight_kg` and `fit_pref` are never read and are omitted. -/
def calculate_edge_case_confidence (height_cm bmi : ℚ) (body_type : String) :
    ℚ :=
  let base := (0.8 : ℚ)
  let base :=
    if height_cm < 160 ∨ height_cm > 200 then base - 0.2
    else if height_cm < 165 ∨ height_cm > 195 then base - 0.1
    else base
  let base :=
    if bmi < 18.5 ∨ bmi > 30 then base - 0.3
    else if bmi < 20 ∨ bmi > 28 then base - 0.1
    else base
  let base := if body_type = "Slim" ∨ body_type = "Broad" then base - 0.1 else base
  max 0.1 base

/-- The weighted ensemble of `EnhancedConfidenceScorer.calculate_confidence`
(ml engine lines 591-620): `similarity_confidence = min(1.0, similarity_weight)`,
weights 0.3/0.25/0.25/0.2, and `np.clip(overall_confidence, 0.0, 1.0)`. -/
def calculate_confidence (anthropometric_confidence similarity_weight
    model_confidence edge_case_confidence : ℚ) : ℚ :=
  let similarity_confidence := min 1 similarity_weight
  let overall := 0.3 * anthropometric_confidence +
    0.25 * similarity_confidence +
    0.25 * model_confidence +
    0.2 * edge_case_confidence
  max 0 (min 1 overall)

/-- `int(size_str[:2])`: the numeric base extracted from a size code in
`GroupConsistencyAnalyzer._calculate_size_consistency` (line 161): the
two leading characters parsed as a decimal numeral.  (Python `int` raises
on non-digits; every size code this is applied to starts with two digits.) -/
def numericBase (size_str : String) : ℚ :=
  (((size_str.take 2).data.foldl (fun n c => 10 * n + (c.toNat - 48)) 0 : ℕ) : ℚ)

/-- `statistics.variance`: the sample variance, with denominator `n - 1`,
of a list of rationals (defined for lists of length at least two;
on shorter lists the code below never calls it). -/
def sample_variance (xs : List ℚ) : ℚ :=
  let n : ℚ := xs.length
  let mean := xs.sum / n
  ((xs.map fun x => (x - mean) ^ 2).sum) / (n - 1)

/-- `GroupConsistencyAnalyzer._calculate_size_consistency` (lines 151-174),
taking the members' recommended size strings: fewer than two members give
1.0 (the inner `len(sizes) == 1` check is unreachable after the first
guard), otherwise `max(0, 1 - variance/16)` with `max_variance = 16`. -/
def calculate_size_consistency (recs : List String) : ℚ :=
  if recs.length < 2 then 1
  else
    let sizes := recs.map numericBase
    let size_variance := sample_variance sizes
    max 0 (1 - size_variance / 16)

/-- A wedding-group member as read by `WeddingGroup.add_member`: only the
role matters to coordinator assignment; `id` keeps members distinguishable. -/
structure GroupMember where
  id : ℕ
  role : WeddingRole
deriving DecidableEq, Repr

/-- `member.role in [WeddingRole.GROOM, WeddingRole.BEST_MAN]`. -/
def qualifiesAsCoordinator (m : GroupMember) : Bool :=
  match m.role with
  | .groom => true
  | .best_man => true
  | _ => false

/-- The mutable state of a `WeddingGroup`: its member list and the optional
coordinator (`id` and `wedding_details` never change and are omitted). -/
structure WeddingGroupState where
  members : List GroupMember
  coordinator : Option GroupMember
deriving DecidableEq, Repr

/-- `WeddingGroup.add_member` (lines 33-37): append the member, then
`if not self.coordinator and member.role in [GROOM, BEST_MAN]` assign the
coordinator.  A dataclass instance is always truthy, so
`not self.coordinator` holds exactly when the coordinator is `None`. -/
def add_member (g : WeddingGroupState) (m : GroupMember) : WeddingGroupState :=
  { members := g.members ++ [m]
    coordinator :=
      match g.coordinator with
      | none => if qualifiesAsCoordinator m then some m else none
      | some c => some c }

/-- A freshly constructed `WeddingGroup`: no members, no coordinator. -/
def newGroup : WeddingGroupState := ⟨[], none⟩

lemma baseSize_slim (r : ℚ) : baseSizeNoLength r "slim" = slimLadder r ++ "S" := rfl

lemma baseSize_relaxed (r : ℚ) :
    baseSizeNoLength r "relaxed" = relaxedLadder r ++ "R" := rfl

lemma baseSize_regular (r : ℚ) :
    baseSizeNoLength r "regular" = regularLadder r ++ "R" := rfl

/-- C1: for every positive height and weight, with
ratio = weight/(height/100), the base size calculator returns exactly the
sizes of the three fit-preference threshold ladders, every comparison being
strict, so a ratio exactly at a boundary gets the lower size. -/
theorem base_size_ladders (h w : ℚ) (hh : 0 < h) (hw : 0 < w) :
    (hwRatio h w < 0.8 → baseSizeNoLength (hwRatio h w) "slim" = "38S") ∧
    (0.8 ≤ hwRatio h w → hwRatio h w < 0.9 →
      baseSizeNoLength (hwRatio h w) "slim" = "40S") ∧
    (0.9 ≤ hwRatio h w → hwRatio h w < 1.0 →
      baseSizeNoLength (hwRatio h w) "slim" = "42S") ∧
    (1.0 ≤ hwRatio h w → hwRatio h w < 1.1 →
      baseSizeNoLength (hwRatio h w) "slim" = "44S") ∧
    (1.1 ≤ hwRatio h w → baseSizeNoLength (hwRatio h w) "slim" = "46S") ∧
    (hwRatio h w < 0.7 → baseSizeNoLength (hwRatio h w) "relaxed" = "40R") ∧
    (0.7 ≤ hwRatio h w → hwRatio h w < 0.8 →
      baseSizeNoLength (hwRatio h w) "relaxed" = "42R") ∧
    (0.8 ≤ hwRatio h w → hwRatio h w < 0.9 →
      baseSizeNoLength (hwRatio h w) "relaxed" = "44R") ∧
    (0.9 ≤ hwRatio h w → hwRatio h w < 1.0 →
      baseSizeNoLength (hwRatio h w) "relaxed" = "46R") ∧
    (1.0 ≤ hwRatio h w → hwRatio h w < 1.1 →
      baseSizeNoLength (hwRatio h w) "relaxed" = "48R") ∧
    (1.1 ≤ hwRatio h w → baseSizeNoLength (hwRatio h w) "relaxed" = "50R") ∧
    (hwRatio h w < 0.75 → baseSizeNoLength (hwRatio h w) "regular" = "38R") ∧
    (0.75 ≤ hwRatio h w → hwRatio h w < 0.85 →
      baseSizeNoLength (hwRatio h w) "regular" = "40R") ∧
    (0.85 ≤ hwRatio h w → hwRatio h w < 0.95 →
      baseSizeNoLength (hwRatio h w) "regular" = "42R") ∧
    (0.95 ≤ hwRatio h w → hwRatio h w < 1.05 →
      baseSizeNoLength (hwRatio h w) "regular" = "44R") ∧
    (1.05 ≤ hwRatio h w → hwRatio h w < 1.15 →
      baseSizeNoLength (hwRatio h w) "regular" = "46R") ∧
    (1.15 ≤ hwRatio h w → hwRatio h w < 1.25 →
      baseSizeNoLength (hwRatio h w) "regular" = "48R") ∧
    (1.25 ≤ hwRatio h w → baseSizeNoLength (hwRatio h w) "regular" = "50R") := by
  set r := hwRatio h w with hr
  refine ⟨fun h1 => ?_, fun h1 h2 => ?_, fun h1 h2 => ?_, fun h1 h2 => ?_,
    fun h1 => ?_, fun h1 => ?_, fun h1 h2 => ?_, fun h1 h2 => ?_,
    fun h1 h2 => ?_, fun h1 h2 => ?_, fun h1 => ?_, fun h1 => ?_,
    fun h1 h2 => ?_, fun h1 h2 => ?_, fun h1 h2 => ?_, fun h1 h2 => ?_,
    fun h1 h2 => ?_, fun h1 => ?_⟩ <;>
  first
    | (rw [baseSize_slim]; unfold slimLadder)
    | (rw [baseSize_relaxed]; unfold relaxedLadder)
    | (rw [baseSize_regular]; unfold regularLadder)
  all_goals split_ifs <;> first | rfl | linarith

/-- Witness for C1: at height 175 cm and weight 75 kg the ratio is
300/7 ≥ 1.1, and the slim ladder returns "46S". -/
theorem base_size_ladders_witness :
    (0 : ℚ) < 175 ∧ (0 : ℚ) < 75 ∧ (1.1 : ℚ) ≤ hwRatio 175 75 ∧
    baseSizeNoLength (hwRatio 175 75) "slim" = "46S" :=
  ⟨by norm_num, by norm_num, by norm_num [hwRatio],
    (base_size_ladders 175 75 (by norm_num) (by norm_num)).2.2.2.2.1
      (by norm_num [hwRatio])⟩

/-- Counterexample for C2: at height 50/13 cm and weight 1/26 kg the BMI
is 26 and the ratio is 1, so the wedding engine's classifier answers
"Regular" while the ML-enhanced engine's classifier (called with the BMI
the validator computes) answers "Overweight" — the two engines do not
return the same label on every input. -/
theorem body_type_classifiers_disagree :
    classify_body_type_wedding (50 / 13) (1 / 26) = "Regular" ∧
    classify_body_type_ml (50 / 13) (1 / 26)
      ((1 / 26) / ((50 / 13) / 100) ^ 2) = "Overweight" ∧
    classify_body_type_wedding (50 / 13) (1 / 26) ≠
      classify_body_type_ml (50 / 13) (1 / 26)
        ((1 / 26) / ((50 / 13) / 100) ^ 2) := by
  refine ⟨?_, ?_, ?_⟩ <;>
    norm_num [classify_body_type_wedding, classify_body_type_ml] <;> decide

/-- C2 (amended): body-type classification is a pure function of
(bmi, height-weight ratio); both classifiers check, in order,
bmi<18.5→Slim, bmi>30→Broad, ratio>1.1→Athletic, ratio<0.85→Slender; the
wedding engine's classifier then answers Regular, but the ML-enhanced
engine's classifier first answers Overweight when 25 ≤ bmi < 30, so the
two engines agree everywhere except on that fall-through region. -/
theorem body_type_classification_amended (h w : ℚ) (hh : 0 < h) :
    (w / (h / 100) ^ 2 < 18.5 →
      classify_body_type_wedding h w = "Slim" ∧
      classify_body_type_ml h w (w / (h / 100) ^ 2) = "Slim") ∧
    (¬ w / (h / 100) ^ 2 < 18.5 → w / (h / 100) ^ 2 > 30 →
      classify_body_type_wedding h w = "Broad" ∧
      classify_body_type_ml h w (w / (h / 100) ^ 2) = "Broad") ∧
    (¬ w / (h / 100) ^ 2 < 18.5 → ¬ w / (h / 100) ^ 2 > 30 →
      w / (h / 100) > 1.1 →
      classify_body_type_wedding h w = "Athletic" ∧
      classify_body_type_ml h w (w / (h / 100) ^ 2) = "Athletic") ∧
    (¬ w / (h / 100) ^ 2 < 18.5 → ¬ w / (h / 100) ^ 2 > 30 →
      ¬ w / (h / 100) > 1.1 → w / (h / 100) < 0.85 →
      classify_body_type_wedding h w = "Slender" ∧
      classify_body_type_ml h w (w / (h / 100) ^ 2) = "Slender") ∧
    (¬ w / (h / 100) ^ 2 < 18.5 → ¬ w / (h / 100) ^ 2 > 30 →
      ¬ w / (h / 100) > 1.1 → ¬ w / (h / 100) < 0.85 →
      25 ≤ w / (h / 100) ^ 2 → w / (h / 100) ^ 2 < 30 →
      classify_body_type_wedding h w = "Regular" ∧
      classify_body_type_ml h w (w / (h / 100) ^ 2) = "Overweight") ∧
    (¬ w / (h / 100) ^ 2 < 18.5 → ¬ w / (h / 100) ^ 2 > 30 →
      ¬ w / (h / 100) > 1.1 → ¬ w / (h / 100) < 0.85 →
      ¬ (25 ≤ w / (h / 100) ^ 2 ∧ w / (h / 100) ^ 2 < 30) →
      classify_body_type_wedding h w = "Regular" ∧
      classify_body_type_ml h w (w / (h / 100) ^ 2) = "Regular") := by
  refine ⟨fun h1 => ?_, fun h1 h2 => ?_, fun h1 h2 h3 => ?_,
    fun h1 h2 h3 h4 => ?_, fun h1 h2 h3 h4 h5 h6 => ?_,
    fun h1 h2 h3 h4 h5 => ?_⟩ <;>
  · constructor <;>
    · simp only [classify_body_type_wedding, classify_body_type_ml]
      split_ifs <;> first | rfl | (exfalso; tauto) | (exfalso; linarith)

/-- Witness for C2 (amended): at height 50/13 cm and weight 1/26 kg the
BMI is 26 and the ratio is 1, landing in the fall-through region where the
wedding classifier answers "Regular" and the ML classifier "Overweight". -/
theorem body_type_classification_amended_witness :
    classify_body_type_wedding (50 / 13) (1 / 26) = "Regular" ∧
    classify_body_type_ml (50 / 13) (1 / 26)
      ((1 / 26) / ((50 / 13) / 100) ^ 2) = "Overweight" :=
  (body_type_classification_amended (50 / 13) (1 / 26)
      (by norm_num)).2.2.2.2.1 (by norm_num) (by norm_num) (by norm_num)
    (by norm_num) (by norm_num) (by norm_num)

/-- Counterexample for C3: the confidence-level mapping is not one shared
mapping across the engine variants — at confidence exactly 0.85 the
ML-enhanced engine answers "Very High" (threshold 0.85) while the wedding
engine answers "High" (its own threshold ladder 0.9/0.8/0.7/0.6). -/
theorem confidence_level_not_shared :
    get_confidence_level_ml 0.85 = "Very High" ∧
    get_confidence_level_wedding 0.85 = "High" ∧
    get_confidence_level_wedding 0.85 ≠ get_confidence_level_ml 0.85 := by
  refine ⟨?_, ?_, ?_⟩ <;>
    norm_num [get_confidence_level_ml, get_confidence_level_wedding] <;> decide

/-- C3 (amended): the ML-enhanced engine's final confidence (the clipped
weighted sum of `calculate_confidence`) always lies in [0,1], and its
confidence-level mapping uses the thresholds 0.85/0.75/0.65/0.55; the
wedding engine, however, derives the level from its own thresholds
0.9/0.8/0.7/0.6, so the mapping is not shared between the variants. -/
theorem confidence_bounds_and_levels_amended
    (a s m e c : ℚ) :
    (0 ≤ calculate_confidence a s m e ∧ calculate_confidence a s m e ≤ 1) ∧
    (0.85 ≤ c → get_confidence_level_ml c = "Very High") ∧
    (0.75 ≤ c → c < 0.85 → get_confidence_level_ml c = "High") ∧
    (0.65 ≤ c → c < 0.75 → get_confidence_level_ml c = "Medium") ∧
    (0.55 ≤ c → c < 0.65 → get_confidence_level_ml c = "Low") ∧
    (c < 0.55 → get_confidence_level_ml c = "Very Low") ∧
    (0.9 ≤ c → get_confidence_level_wedding c = "Very High") ∧
    (0.8 ≤ c → c < 0.9 → get_confidence_level_wedding c = "High") ∧
    (0.7 ≤ c → c < 0.8 → get_confidence_level_wedding c = "Medium") ∧
    (0.6 ≤ c → c < 0.7 → get_confidence_level_wedding c = "Low") ∧
    (c < 0.6 → get_confidence_level_wedding c = "Very Low") := by
  refine ⟨⟨le_max_left _ _, ?_⟩, ?_, ?_, ?_, ?_, ?_, ?_, ?_, ?_, ?_, ?_⟩
  · have : min 1 (0.3 * a + 0.25 * min 1 s + 0.25 * m + 0.2 * e) ≤ 1 :=
      min_le_left _ _
    calc calculate_confidence a s m e ≤ max 0 1 := by
          unfold calculate_confidence
          exact max_le_max le_rfl this
      _ = 1 := by norm_num
  all_goals
    intros
    simp only [get_confidence_level_ml, get_confidence_level_wedding]
    split_ifs <;> first | rfl | linarith

/-- Witness for C3 (amended): at confidence exactly 0.85 the ML-enhanced
mapping answers "Very High" and the wedding mapping "High"; the clipped
weighted sum at sample sub-scores 0.9/1.2/0.8/0.7 is within [0,1]. -/
theorem confidence_bounds_and_levels_amended_witness :
    (0 ≤ calculate_confidence 0.9 1.2 0.8 0.7 ∧
      calculate_confidence 0.9 1.2 0.8 0.7 ≤ 1) ∧
    get_confidence_level_ml 0.85 = "Very High" ∧
    get_confidence_level_wedding 0.85 = "High" :=
  ⟨(confidence_bounds_and_levels_amended 0.9 1.2 0.8 0.7 0.85).1,
    (confidence_bounds_and_levels_amended 0.9 1.2 0.8 0.7 0.85).2.1
      (by norm_num),
    (confidence_bounds_and_levels_amended 0.9 1.2 0.8 0.7 0.85).2.2.2.2.2.2.2.1
      (by norm_num) (by norm_num)⟩

/-- C4: the role-based recommendation is not a deterministic function of
its explicit inputs.  For a groom (style flexibility 0.9) with fit
preference "slim" at a formal wedding (style bias "regular"), the code
compares `random.random()` with `abs(1 - 0.9) = 0.1`: a draw below 0.1
shifts the fit to "regular" and yields size "50R", while a draw of 0.5
keeps "slim" and yields size "46S" — identical inputs, different results. -/
theorem role_recommendation_depends_on_random_draw :
    (get_role_based_recommendation ⟨.groom, 175, 75, "slim", "metric"⟩
        .formal (1 / 20)).map Recommendation.size = some "50R" ∧
    (get_role_based_recommendation ⟨.groom, 175, 75, "slim", "metric"⟩
        .formal (1 / 2)).map Recommendation.size = some "46S" ∧
    get_role_based_recommendation ⟨.groom, 175, 75, "slim", "metric"⟩
        .formal (1 / 20) ≠
      get_role_based_recommendation ⟨.groom, 175, 75, "slim", "metric"⟩
        .formal (1 / 2) := by
  have h1 : (get_role_based_recommendation ⟨.groom, 175, 75, "slim", "metric"⟩
      .formal (1 / 20)).map Recommendation.size = some "50R" := by
    norm_num [get_role_based_recommendation, role_adjustments, style_impacts,
      adjust_fit_preference, get_base_recommendation, apply_wedding_enhancements,
      hwRatio, baseSizeNoLength, slimLadder, regularLadder, applyLength,
      calculate_wedding_confidence, classify_body_type_wedding,
      get_confidence_level_wedding, abs]
    decide
  have h2 : (get_role_based_recommendation ⟨.groom, 175, 75, "slim", "metric"⟩
      .formal (1 / 2)).map Recommendation.size = some "46S" := by
    norm_num [get_role_based_recommendation, role_adjustments, style_impacts,
      adjust_fit_preference, get_base_recommendation, apply_wedding_enhancements,
      hwRatio, baseSizeNoLength, slimLadder, regularLadder, applyLength,
      calculate_wedding_confidence, classify_body_type_wedding,
      get_confidence_level_wedding, abs]
    decide
  refine ⟨h1, h2, fun hc => ?_⟩
  rw [hc, h2] at h1
  exact absurd (Option.some.inj h1) (by decide)

/-- C5: the edge-case confidence sub-score equals 0.8, minus 0.3 if
BMI<18.5 or BMI>30 (otherwise minus 0.1 if BMI<20 or BMI>28), minus 0.2 if
height<160 or height>200 (otherwise minus 0.1 if height<165 or
height>195), minus 0.1 if the body type is Slim or Broad, floored at 0.1. -/
theorem edge_case_confidence_formula (height_cm bmi : ℚ) (body_type : String) :
    calculate_edge_case_confidence height_cm bmi body_type =
      max 0.1 (0.8
        - (if bmi < 18.5 ∨ bmi > 30 then 0.3
           else if bmi < 20 ∨ bmi > 28 then 0.1 else 0)
        - (if height_cm < 160 ∨ height_cm > 200 then 0.2
           else if height_cm < 165 ∨ height_cm > 195 then 0.1 else 0)
        - (if body_type = "Slim" ∨ body_type = "Broad" then 0.1 else 0)) := by
  unfold calculate_edge_case_confidence
  split_ifs <;> norm_num

/-- C6: for heights above 200 cm the returned size code is the ladder's
code with its fit suffix replaced by the long-length marker "L"; for
heights in [185, 200] the ladder's size code is returned unchanged. -/
theorem length_override (h w : ℚ) (fit : String) :
    (h > 200 →
      applyLength h (baseSizeNoLength (hwRatio h w) fit) =
        (baseSizeNoLength (hwRatio h w) fit).dropRight 1 ++ "L") ∧
    (185 ≤ h → h ≤ 200 →
      applyLength h (baseSizeNoLength (hwRatio h w) fit) =
        baseSizeNoLength (hwRatio h w) fit) := by
  constructor
  · intro h1
    unfold applyLength
    rw [if_pos (by linarith), if_pos h1]
  · intro h1 h2
    unfold applyLength
    split_ifs with h3 h4
    · linarith
    · rfl
    · rfl

/-- Witness for C6: at height 210 cm and weight 100 kg (regular fit, ratio
1000/21) the ladder answers "50R" and the override turns it into "50L";
at height 190 cm the ladder's "50R" is returned unchanged. -/
theorem length_override_witness :
    ((210 : ℚ) > 200 ∧
      applyLength 210 (baseSizeNoLength (hwRatio 210 100) "regular") =
        (baseSizeNoLength (hwRatio 210 100) "regular").dropRight 1 ++ "L") ∧
    ((185 : ℚ) ≤ 190 ∧ (190 : ℚ) ≤ 200 ∧
      applyLength 190 (baseSizeNoLength (hwRatio 190 100) "regular") =
        baseSizeNoLength (hwRatio 190 100) "regular") :=
  ⟨⟨by norm_num, (length_override 210 100 "regular").1 (by norm_num)⟩,
    ⟨by norm_num, by norm_num,
      (length_override 190 100 "regular").2 (by norm_num) (by norm_num)⟩⟩

/-- C7: the size-consistency sub-score of the group analysis is 1.0 for
parties of fewer than two members, and max(0, 1 − variance/16) otherwise,
the variance being the sample variance (Python `statistics.variance`,
denominator n−1) of the members' numeric base sizes; a party whose sizes
have variance 16 — a spread of 4 sizes around the mean — scores zero. -/
theorem size_consistency_formula (recs : List String) :
    (recs.length < 2 → calculate_size_consistency recs = 1) ∧
    (2 ≤ recs.length →
      calculate_size_consistency recs =
        max 0 (1 - sample_variance (recs.map numericBase) / 16)) ∧
    (2 ≤ recs.length → sample_variance (recs.map numericBase) = 16 →
      calculate_size_consistency recs = 0) := by
  refine ⟨fun h1 => ?_, fun h1 => ?_, fun h1 h2 => ?_⟩
  · unfold calculate_size_consistency
    rw [if_pos h1]
  · unfold calculate_size_consistency
    rw [if_neg (by omega)]
  · unfold calculate_size_consistency
    rw [if_neg (by omega)]
    simp only [h2]
    norm_num

/-- Witness for C7: the three-member party with sizes 38R, 42R, 46R has
numeric sizes of sample variance exactly 16 and size consistency zero,
while a single-member party scores 1.0. -/
theorem size_consistency_formula_witness :
    2 ≤ (["38R", "42R", "46R"] : List String).length ∧
    sample_variance ((["38R", "42R", "46R"] : List String).map numericBase) = 16 ∧
    calculate_size_consistency ["38R", "42R", "46R"] = 0 ∧
    (["50R"] : List String).length < 2 ∧
    calculate_size_consistency ["50R"] = 1 := by
  have h38 : numericBase "38R" = ((38 : ℕ) : ℚ) := rfl
  have h42 : numericBase "42R" = ((42 : ℕ) : ℚ) := rfl
  have h46 : numericBase "46R" = ((46 : ℕ) : ℚ) := rfl
  have hvar :
      sample_variance ((["38R", "42R", "46R"] : List String).map numericBase)
        = 16 := by
    have hmap : (["38R", "42R", "46R"] : List String).map numericBase
        = [38, 42, 46] := by
      simp [h38, h42, h46]
    rw [hmap]
    norm_num [sample_variance]
  exact ⟨by norm_num, hvar,
    (size_consistency_formula ["38R", "42R", "46R"]).2.2 (by norm_num) hvar,
    by norm_num,
    (size_consistency_formula ["50R"]).1 (by norm_num)⟩

lemma foldl_add_member_coordinator (ms : List GroupMember)
    (g : WeddingGroupState) :
    (List.foldl add_member g ms).coordinator =
      (match g.coordinator with
       | some c => some c
       | none => List.find? qualifiesAsCoordinator ms) := by
  induction ms generalizing g with
  | nil =>
    obtain ⟨mems, co⟩ := g
    cases co <;> rfl
  | cons m ms ih =>
    rw [List.foldl_cons, ih]
    cases hc : g.coordinator with
    | some c => simp [add_member, hc]
    | none =>
      by_cases hq : qualifiesAsCoordinator m
      · simp [add_member, hc, hq, List.find?_cons_of_pos]
      · simp [add_member, hc, hq, List.find?_cons_of_neg]

/-- C8: starting from a fresh group, after any sequence of member
additions the coordinator is exactly the first added member whose role is
Groom or Best Man, and an assigned coordinator is never reassigned by any
later `add_member` call. -/
theorem coordinator_first_qualifying_and_stable (ms : List GroupMember)
    (g : WeddingGroupState) (m c : GroupMember) :
    (List.foldl add_member newGroup ms).coordinator =
      List.find? qualifiesAsCoordinator ms ∧
    (g.coordinator = some c → (add_member g m).coordinator = some c) := by
  constructor
  · rw [foldl_add_member_coordinator]
    rfl
  · intro hc
    simp [add_member, hc]

/-- Witness for C8: adding an usher, then a best man, then a groom makes
the best man (the first qualifying member) coordinator, and a subsequent
`add_member` of a groom leaves the coordinator unchanged. -/
theorem coordinator_first_qualifying_and_stable_witness :
    (List.foldl add_member newGroup
        [⟨0, .usher⟩, ⟨1, .best_man⟩, ⟨2, .groom⟩]).coordinator =
      List.find? qualifiesAsCoordinator
        [⟨0, .usher⟩, ⟨1, .best_man⟩, ⟨2, .groom⟩] ∧
    List.find? qualifiesAsCoordinator
        [⟨0, .usher⟩, ⟨1, .best_man⟩, ⟨2, .groom⟩] = some ⟨1, .best_man⟩ ∧
    (WeddingGroupState.mk [] (some ⟨1, .best_man⟩)).coordinator =
      some ⟨1, .best_man⟩ ∧
    (add_member ⟨[], some ⟨1, .best_man⟩⟩ ⟨2, .groom⟩).coordinator =
      some ⟨1, .best_man⟩ :=
  ⟨(coordinator_first_qualifying_and_stable
      [⟨0, .usher⟩, ⟨1, .best_man⟩, ⟨2, .groom⟩]
      ⟨[], some ⟨1, .best_man⟩⟩ ⟨2, .groom⟩ ⟨1, .best_man⟩).1,
    by decide, rfl,
    (coordinator_first_qualifying_and_stable
      [⟨0, .usher⟩, ⟨1, .best_man⟩, ⟨2, .groom⟩]
      ⟨[], some ⟨1, .best_man⟩⟩ ⟨2, .groom⟩ ⟨1, .best_man⟩).2 rfl⟩

/-- C9: for every member whose role is RING_BEARER — a declared value of
the WeddingRole enumeration — the role-based recommendation fails (the
`role_adjustments` table has no entry for that role, so the lookup raises
`KeyError`), whatever the measurements, style and random draw. -/
theorem ring_bearer_recommendation_fails (m : Member) (style : WeddingStyle)
    (rand : ℚ) (hrole : m.role = .ring_bearer) :
    get_role_based_recommendation m style rand = none := by
  unfold get_role_based_recommendation
  rw [hrole]
  rfl

/-- Witness for C9: a concrete ring bearer gets no recommendation. -/
theorem ring_bearer_recommendation_fails_witness :
    (Member.mk .ring_bearer 180 80 "regular" "metric").role = .ring_bearer ∧
    get_role_based_recommendation ⟨.ring_bearer, 180, 80, "regular", "metric"⟩
      .formal 0 = none :=
  ⟨rfl, ring_bearer_recommendation_fails _ .formal 0 rfl⟩

lemma calculate_wedding_confidence_bounds (h w : ℚ) (fit : String) :
    0.75 ≤ calculate_wedding_confidence h w fit ∧
    calculate_wedding_confidence h w fit ≤ 1 := by
  simp only [calculate_wedding_confidence]
  constructor
  · refine le_min (by norm_num) ?_
    split_ifs <;> norm_num
  · exact min_le_left _ _

lemma get_base_recommendation_confidence (height weight : ℚ)
    (fit unit : String) :
    (get_base_recommendation height weight fit unit).confidence =
      calculate_wedding_confidence
        (if unit = "metric" then height else height * 2.54)
        (if unit = "metric" then weight else weight * 0.453592) fit := rfl

lemma style_boost_nonneg (s : WeddingStyle) :
    0 ≤ ((style_impacts s).map StyleConfig.confidence_boost).getD 0 := by
  cases s <;> norm_num [style_impacts]

lemma enhancements_confidence_range (base : Recommendation)
    (cfg : RoleConfig) (scfg : Option StyleConfig)
    (hb : 0.75 ≤ base.confidence) (hboost : 0 ≤ cfg.confidence_boost)
    (hs : 0 ≤ (scfg.map StyleConfig.confidence_boost).getD 0) :
    0.75 ≤ (apply_wedding_enhancements base cfg scfg).confidence ∧
    (apply_wedding_enhancements base cfg scfg).confidence ≤ 1 := by
  simp only [apply_wedding_enhancements]
  exact ⟨le_min (by norm_num) (by linarith), min_le_left _ _⟩

/-- C10: every recommendation the wedding engine's role-based pipeline
completes without error has confidence in [0.75, 1]: the wedding base
confidence of 0.85 moves by at most −0.1 / +0.15 before clamping at 1.0,
and the role and style boosts are non-negative and clamped at 1.0. -/
theorem wedding_confidence_range (m : Member) (style : WeddingStyle)
    (rand : ℚ) (rec : Recommendation)
    (hrec : get_role_based_recommendation m style rand = some rec) :
    0.75 ≤ rec.confidence ∧ rec.confidence ≤ 1 := by
  obtain ⟨role, mh, mw, mfit, munit⟩ := m
  cases role <;>
    simp only [get_role_based_recommendation, role_adjustments,
      Option.some.injEq, reduceCtorEq] at hrec <;>
  · rw [← hrec]
    refine enhancements_confidence_range _ _ _ ?_ (by norm_num)
      (style_boost_nonneg style)
    rw [get_base_recommendation_confidence]
    exact (calculate_wedding_confidence_bounds _ _ _).1

/-- Witness for C10: the groom example (175 cm, 75 kg, slim fit, formal
wedding, random draw 1/2) completes with confidence exactly 1, which lies
in [0.75, 1]. -/
theorem wedding_confidence_range_witness :
    get_role_based_recommendation ⟨.groom, 175, 75, "slim", "metric"⟩
        .formal (1 / 2) = some ⟨"46S", 1, "Very High", "Athletic"⟩ ∧
    (0.75 : ℚ) ≤ 1 ∧ (1 : ℚ) ≤ 1 := by
  have h : get_role_based_recommendation ⟨.groom, 175, 75, "slim", "metric"⟩
      .formal (1 / 2) = some ⟨"46S", 1, "Very High", "Athletic"⟩ := by
    have hsr : ("slim" : String) ≠ "regular" := by simp
    norm_num [get_role_based_recommendation, role_adjustments, style_impacts,
      adjust_fit_preference, get_base_recommendation, apply_wedding_enhancements,
      hwRatio, baseSizeNoLength, slimLadder, regularLadder, applyLength,
      calculate_wedding_confidence, classify_body_type_wedding,
      get_confidence_level_wedding, abs, Recommendation.mk.injEq,
      inf_eq_min, min_def, if_neg hsr]
    decide
  exact ⟨h, wedding_confidence_range _ _ _ _ h⟩
